import Mathlib

/-!
Verification of the tabular query layer of `src/agent/tools/hospital_data.py`.

The Python module holds four pandas-backed stores (`HospitalDataTool`,
`DepartmentDataTool`, `DoctorDataTool`, `PatientDataTool`).  Each store keeps a
DataFrame `self.df : Option Frame` (`None` when the CSV was absent at load
time) and exposes query methods that filter rows and build result dicts.

Embedding conventions:
* Python strings are embedded as `Str := List Char` (Lean `String` functions do
  not reduce in the kernel; CSV cells, column names and query keys are all
  code-point lists, which matches Python string comparison semantics).
* A DataFrame is a `Frame`: a column-name list plus rows of cells, a cell being
  one string.  A missing cell models a pandas `NaN`.
* Python `float(...)` values produced by the coordinate parser are embedded as
  exact decimals `Dec` (integer mantissa and power-of-ten exponent); the
  great-circle arithmetic is carried out on their real values.  This is the
  usual real-number idealization of IEEE doubles.
* Each fallible method returns an `Outcome`: `ok` for a success payload,
  `err` for a returned `{"error": ...}` dict (a discriminated failure), and
  `raised` for a Python exception that propagates out of the method.
-/

/-! ## Strings as character lists -/

/-- Python strings, embedded as lists of characters (code points). -/
abbrev Str := List Char

/-- Conversion from Lean string literals to the embedded string type. -/
def str (s : String) : Str := s.toList

/-- Python `s.lower()` restricted to ASCII, which is all the datasets use. -/
def strLower (s : Str) : Str := s.map Char.toLower

/-- Does `needle` occur at the start of `hay`? -/
def prefixMatch : Str → Str → Bool
  | [], _ => true
  | _ :: _, [] => false
  | a :: s, b :: t => a == b && prefixMatch s t

/-- Python `needle in hay` (substring containment). -/
def strContains : Str → Str → Bool
  | [], needle => needle.isEmpty
  | c :: t, needle => prefixMatch needle (c :: t) || strContains t needle

/-- Case-insensitive substring containment: the semantics of
`Series.str.contains(pat, case=False, na=False)` on a present cell, for the
literal (regex-metacharacter-free) patterns this repository passes, such as
weekday names, department names and diseases. -/
def containsCI (hay needle : Str) : Bool :=
  strContains (strLower hay) (strLower needle)

/-- Python `s.split(',')` (auxiliary accumulator form). -/
def splitCommaAux : Str → Str → List Str
  | [], acc => [acc.reverse]
  | c :: t, acc =>
    if c = ',' then acc.reverse :: splitCommaAux t [] else splitCommaAux t (c :: acc)

/-- Python `s.split(',')`. -/
def splitComma (s : Str) : List Str := splitCommaAux s []

/-! ## Python `float(...)` of a string

The parser accepts what `float` accepts on this repository's data: optional
surrounding whitespace, an optional sign, digits with an optional single
decimal point (at least one digit overall), and an optional exponent part.
(`inf`/`nan`/underscore spellings are not modelled; the datasets never contain
them, and every claim only distinguishes parse success from parse failure.)
The result is the exact decimal value `num * 10 ^ exp`. -/

/-- An exact decimal number `num * 10 ^ exp`: the value of a parsed float. -/
structure Dec where
  num : Int
  exp : Int
  deriving DecidableEq, Repr

/-- Numeric value of a digit character. -/
def digitToNat (c : Char) : Nat := c.toNat - 48

/-- Value of a digit string read in base 10. -/
def natOfDigits (l : Str) : Nat := l.foldl (fun a c => 10 * a + digitToNat c) 0

/-- Exponent part of a float literal: `[+|-]digits` after the `e`. -/
def pyExp (mantNum mantExp : Int) (t : Str) : Option Dec :=
  let p := match t with
    | '-' :: r => (true, r)
    | '+' :: r => (false, r)
    | r => (false, r)
  let ds := p.2.takeWhile Char.isDigit
  let rest := p.2.dropWhile Char.isDigit
  if ds.isEmpty || !rest.isEmpty then none
  else some ⟨mantNum, mantExp + (if p.1 then -(natOfDigits ds : Int) else (natOfDigits ds : Int))⟩

/-- After the mantissa: either the end of the string or an exponent part. -/
def pyExpPart (mantNum mantExp : Int) (l : Str) : Option Dec :=
  match l with
  | [] => some ⟨mantNum, mantExp⟩
  | 'e' :: t => pyExp mantNum mantExp t
  | 'E' :: t => pyExp mantNum mantExp t
  | _ => none

/-- Mantissa of a float literal: sign, integer digits, optional fraction. -/
def pyFloatBody (l : Str) : Option Dec :=
  let p := match l with
    | '-' :: t => (true, t)
    | '+' :: t => (false, t)
    | t => (false, t)
  let ip := p.2.takeWhile Char.isDigit
  let r1 := p.2.dropWhile Char.isDigit
  let q := match r1 with
    | '.' :: t => (t.takeWhile Char.isDigit, t.dropWhile Char.isDigit)
    | t => (([] : Str), t)
  if ip.isEmpty && q.1.isEmpty then none
  else
    pyExpPart (if p.1 then -(natOfDigits (ip ++ q.1) : Int) else (natOfDigits (ip ++ q.1) : Int))
      (-(q.1.length : Int)) q.2

/-- Python `float(s)`: `none` models a raised `ValueError`. -/
def pyFloat (s : Str) : Option Dec :=
  pyFloatBody (((s.dropWhile Char.isWhitespace).reverse.dropWhile Char.isWhitespace).reverse)

/-! ## Outcomes -/

/-- The Python exception classes the embedded methods can raise. -/
inductive PyExc where
  /-- `TypeError: 'NoneType' object is not subscriptable` from `self.df[...]`
  when the CSV was absent and `self.df` is `None`. -/
  | typeError
  /-- `AttributeError` from attribute access on `None` (e.g. `self.df.columns`),
  or from calling a string method on a `NaN` cell. -/
  | attributeError
  /-- `ValueError` from `float(...)` on a non-numeric token. -/
  | valueError
  /-- `IndexError` from indexing past the end of a token list. -/
  | indexError
  deriving DecidableEq, Repr

/-- The `{"error": ...}` dicts the Python methods return, keyed by which
f-string produced them (the payload is the interpolated argument). -/
inductive Err where
  /-- `Column '{c}' not found. Use get_column_names() ...` -/
  | columnNotFound (column : Str)
  /-- `Hospital '{name}' not found` -/
  | hospitalNotFound (name : Str)
  /-- `No data found for hospital '{name}' on date '{date}'` -/
  | noDataForDate (name date : Str)
  /-- `Department '{name}' not found` -/
  | departmentNotFound (name : Str)
  /-- `Doctor '{name}' not found` -/
  | doctorNotFound (name : Str)
  /-- `Patient '{name}' not found` -/
  | patientNotFound (name : Str)
  /-- `No patient found in room '{room}'` -/
  | noPatientInRoom (room : Str)
  /-- `Department data not found` -/
  | departmentDataNotFound
  /-- `Doctor data not found` -/
  | doctorDataNotFound
  /-- `Patient data not found` -/
  | patientDataNotFound
  deriving DecidableEq, Repr

/-- Result of a fallible method: a success payload, a returned error dict, or a
raised (uncaught, propagating) Python exception. -/
inductive Outcome (α : Type) where
  | ok : α → Outcome α
  | err : Err → Outcome α
  | raised : PyExc → Outcome α
  deriving DecidableEq, Repr

/-- Is this outcome a success? -/
def Outcome.isOk {α : Type} : Outcome α → Bool
  | .ok _ => true
  | _ => false

/-! ## Frames (pandas DataFrames) -/

/-- A loaded DataFrame: column names plus rows of cells, in file order. -/
structure Frame where
  columns : List Str
  rows : List (List Str)
  deriving DecidableEq, Repr

/-- Position of a column in the schema. -/
def Frame.colIdx (f : Frame) (c : Str) : Option Nat :=
  f.columns.findIdx? (fun x => x == c)

/-- The cell of row `r` in column `c` (`none` for a missing column or a
`NaN`-padded short row). -/
def Frame.cell (f : Frame) (r : List Str) (c : Str) : Option Str :=
  (f.colIdx c).bind (fun i => r[i]?)

/-- `df[df[col] == q]`: the rows whose cell in `col` equals `q` exactly. -/
def filterEq (f : Frame) (col q : Str) : List (List Str) :=
  f.rows.filter (fun r => f.cell r col == some q)

/-- `df[df[col].str.contains(q, case=False, na=False)]`: the rows whose cell in
`col` contains `q` case-insensitively; a missing (`NaN`) cell never matches. -/
def filterContains (f : Frame) (col q : Str) : List (List Str) :=
  f.rows.filter (fun r =>
    match f.cell r col with
    | none => false
    | some s => containsCI s q)

/-- First-occurrence deduplication, auxiliary form carrying the set of values
already seen. -/
def dedupFirstAux {α : Type} [DecidableEq α] : List α → List α → List α
  | _, [] => []
  | seen, a :: l =>
    if a ∈ seen then dedupFirstAux seen l else a :: dedupFirstAux (a :: seen) l

/-- Pandas `drop_duplicates` / `Series.unique`: keep the first occurrence of
each value, in row order. -/
def dedupFirst {α : Type} [DecidableEq α] (l : List α) : List α :=
  dedupFirstAux [] l

/-! ## HospitalDataTool

State is `Option Frame`: `none` models `self.df is None` (the metrics CSV was
absent at construction time), `some f` a loaded DataFrame.  The metrics schema
columns (`hospital_id`, `hospital_name`, `date`, `region`, `location`) are
present in every dataset this repository ships; where the Python code reads
such a cell of a row it has already selected, a missing cell is embedded with
`Option.getD` rather than a raised `KeyError`, a case no claim exercises. -/

/-- The fixed `hospital_id -> location` mapping of `_add_location_column`. -/
def location_mapping : List (Str × Str) :=
  [(str "H001", str "New York, NY"),
   (str "H002", str "Los Angeles, CA"),
   (str "H003", str "Chicago, IL"),
   (str "H004", str "Houston, TX"),
   (str "H005", str "Phoenix, AZ")]

/-- `HospitalDataTool._add_location_column`: if the `location` column is
absent, append it (mapping each row's `hospital_id`, an unmapped id giving an
empty cell for pandas `NaN`) and persist the CSV; otherwise do nothing.  The
returned `Bool` records whether the CSV was rewritten. -/
def add_location_column (df : Option Frame) : Option Frame × Bool :=
  match df with
  | none => (none, false)
  | some f =>
    if str "location" ∈ f.columns then (some f, false)
    else
      (some { columns := f.columns ++ [str "location"],
              rows := f.rows.map (fun r =>
                r ++ [((f.cell r (str "hospital_id")).bind
                        (fun i => location_mapping.lookup i)).getD []]) },
       true)

/-- `HospitalDataTool.get_hospital_count`: `0` on an empty store, else
`df['hospital_id'].nunique()`. -/
def get_hospital_count (df : Option Frame) : Nat :=
  match df with
  | none => 0
  | some f => (dedupFirst (f.rows.filterMap (fun r => f.cell r (str "hospital_id")))).length

/-- `HospitalDataTool.get_hospital_names`: `[]` on an empty store, else the
distinct `(hospital_id, hospital_name, location)` triples in row order. -/
def get_hospital_names (df : Option Frame) : List (Str × Str × Str) :=
  match df with
  | none => []
  | some f =>
    dedupFirst (f.rows.filterMap (fun r =>
      match f.cell r (str "hospital_id"), f.cell r (str "hospital_name"),
          f.cell r (str "location") with
      | some i, some n, some l => some (i, n, l)
      | _, _, _ => none))

/-- `HospitalDataTool.get_hospital_details_by_date`: no empty-store guard, so
`self.df[...]` raises `TypeError` when the store is empty; else exact match on
name and date, first matching row or an error dict. -/
def get_hospital_details_by_date (df : Option Frame) (nm d : Str) : Outcome (List Str) :=
  match df with
  | none => .raised .typeError
  | some f =>
    match f.rows.filter (fun r =>
        f.cell r (str "hospital_name") == some nm && f.cell r (str "date") == some d) with
    | [] => .err (.noDataForDate nm d)
    | r :: _ => .ok r

/-- Result payload of `get_column_value`: one scalar for a given date, or the
whole `(date, value)` series for the hospital. -/
inductive ColumnValue where
  | single (hospital_name column date value : Str) : ColumnValue
  | series (hospital_name column : Str) (values : List (Str × Str)) : ColumnValue
  deriving DecidableEq, Repr

/-- `HospitalDataTool.get_column_value`: on an empty store `self.df.columns`
raises `AttributeError`; else the column-existence check runs first, then the
hospital filter, then the (truthy) date filter.  Python's `if date:` treats an
empty date string like an omitted one. -/
def get_column_value (df : Option Frame) (nm c : Str) (date : Option Str) :
    Outcome ColumnValue :=
  match df with
  | none => .raised .attributeError
  | some f =>
    if c ∉ f.columns then .err (.columnNotFound c)
    else
      match filterEq f (str "hospital_name") nm with
      | [] => .err (.hospitalNotFound nm)
      | r0 :: rs =>
        match date with
        | some d =>
          if d.isEmpty then
            .ok (.series nm c ((r0 :: rs).map (fun r =>
              ((f.cell r (str "date")).getD [], (f.cell r c).getD []))))
          else
            match (r0 :: rs).filter (fun r => f.cell r (str "date") == some d) with
            | [] => .err (.noDataForDate nm d)
            | q :: _ => .ok (.single nm c d ((f.cell q c).getD []))
        | none =>
          .ok (.series nm c ((r0 :: rs).map (fun r =>
            ((f.cell r (str "date")).getD [], (f.cell r c).getD []))))

/-- `HospitalDataTool.get_column_names`: `list(self.df.columns)`, which raises
`AttributeError` on an empty store. -/
def get_column_names (df : Option Frame) : Outcome (List Str) :=
  match df with
  | none => .raised .attributeError
  | some f => .ok f.columns

/-- The `row['location'].split(',')` / `float(...)` sequence shared by
`get_hospital_location` and `calculate_distance`: split on commas, convert the
first two tokens.  A missing first or second token raises `IndexError`, a
non-numeric token raises `ValueError`; both propagate. -/
def parseLatLon (loc : Str) : Outcome (Dec × Dec) :=
  match splitComma loc with
  | [] => .raised .indexError
  | c0 :: rest =>
    match pyFloat c0 with
    | none => .raised .valueError
    | some la =>
      match rest with
      | [] => .raised .indexError
      | c1 :: _ =>
        match pyFloat c1 with
        | none => .raised .valueError
        | some lo => .ok (la, lo)

/-- Success payload of `get_hospital_location`. -/
structure LocationInfo where
  hospital_name : Str
  hospital_id : Str
  location : Str
  region : Str
  latitude : Dec
  longitude : Dec
  deriving DecidableEq, Repr

/-- `HospitalDataTool.get_hospital_location`: no empty-store guard (raises
`TypeError` on an empty store); else resolve the hospital by exact name match,
take the first row, and parse its `location` cell as a `lat,lon` pair — the
parse happens before the result dict is built, so a non-numeric location field
raises out of the method.  A `NaN` location cell would raise `AttributeError`
from `.split`. -/
def get_hospital_location (df : Option Frame) (nm : Str) : Outcome LocationInfo :=
  match df with
  | none => .raised .typeError
  | some f =>
    match filterEq f (str "hospital_name") nm with
    | [] => .err (.hospitalNotFound nm)
    | r :: _ =>
      match f.cell r (str "location") with
      | none => .raised .attributeError
      | some loc =>
        match parseLatLon loc with
        | .raised e => .raised e
        | .err e => .err e
        | .ok (la, lo) =>
          .ok { hospital_name := nm,
                hospital_id := (f.cell r (str "hospital_id")).getD [],
                location := loc,
                region := (f.cell r (str "region")).getD [],
                latitude := la, longitude := lo }

/-! ## Geospatial computation (real-number model of the float arithmetic) -/

/-- Real value of an exact decimal. -/
noncomputable def Dec.toReal (d : Dec) : ℝ := (d.num : ℝ) * (10 : ℝ) ^ d.exp

/-- `math.radians`. -/
noncomputable def radians (x : ℝ) : ℝ := x * Real.pi / 180

/-- `math.atan2 y x` on real numbers (the standard quadrant-correct
arctangent; only its functionality — equal arguments, equal value — matters to
the claims). -/
noncomputable def atan2 (y x : ℝ) : ℝ :=
  if 0 < x then Real.arctan (y / x)
  else if x < 0 ∧ 0 ≤ y then Real.arctan (y / x) + Real.pi
  else if x < 0 then Real.arctan (y / x) - Real.pi
  else if 0 < y then Real.pi / 2
  else if y < 0 then -(Real.pi / 2)
  else 0

/-- The intermediate `a` of the haversine formula in `calculate_distance`:
`sin²(Δlat/2) + cos(lat1)·cos(lat2)·sin²(Δlon/2)` (angles in radians). -/
noncomputable def haversine_a (lat1 lon1 lat2 lon2 : ℝ) : ℝ :=
  Real.sin (radians (lat2 - lat1) / 2) ^ 2 +
    Real.cos (radians lat1) * Real.cos (radians lat2) *
      Real.sin (radians (lon2 - lon1) / 2) ^ 2

/-- The haversine great-circle distance of `calculate_distance`:
`R * 2 * atan2(√a, √(1−a))` with Earth radius `R = 6371` km. -/
noncomputable def haversine_km (lat1 lon1 lat2 lon2 : ℝ) : ℝ :=
  6371 * (2 * atan2 (Real.sqrt (haversine_a lat1 lon1 lat2 lon2))
    (Real.sqrt (1 - haversine_a lat1 lon1 lat2 lon2)))

/-- Python `round(x, 2)` in the real-number model: round to a multiple of
`1/100` (ties, which differ between Python's half-to-even and this rounding,
occur on a measure-zero set no claim depends on). -/
noncomputable def round2 (x : ℝ) : ℝ := ((round (x * 100) : ℤ) : ℝ) / 100

/-- Success payload of `calculate_distance`. -/
structure DistanceInfo where
  from_hospital : Str
  to_hospital : Str
  distance_km : ℝ
  from_latitude : Dec
  from_longitude : Dec
  to_latitude : Dec
  to_longitude : Dec

/-- `HospitalDataTool.calculate_distance`: no empty-store guard (raises
`TypeError` on an empty store); resolve both hospitals by exact name match
(first row each), parse both location cells (raising on a non-numeric pair),
then return the haversine distance rounded to 2 decimal places. -/
noncomputable def calculate_distance (df : Option Frame) (nm1 nm2 : Str) :
    Outcome DistanceInfo :=
  match df with
  | none => .raised .typeError
  | some f =>
    match filterEq f (str "hospital_name") nm1 with
    | [] => .err (.hospitalNotFound nm1)
    | r1 :: _ =>
      match filterEq f (str "hospital_name") nm2 with
      | [] => .err (.hospitalNotFound nm2)
      | r2 :: _ =>
        match f.cell r1 (str "location") with
        | none => .raised .attributeError
        | some loc1 =>
          match parseLatLon loc1 with
          | .raised e => .raised e
          | .err e => .err e
          | .ok (la1, lo1) =>
            match f.cell r2 (str "location") with
            | none => .raised .attributeError
            | some loc2 =>
              match parseLatLon loc2 with
              | .raised e => .raised e
              | .err e => .err e
              | .ok (la2, lo2) =>
                .ok { from_hospital := nm1, to_hospital := nm2,
                      distance_km := round2 (haversine_km la1.toReal lo1.toReal
                        la2.toReal lo2.toReal),
                      from_latitude := la1, from_longitude := lo1,
                      to_latitude := la2, to_longitude := lo2 }

/-- The `self.df[['hospital_id','hospital_name']].drop_duplicates()` table of
`get_all_distances`: distinct `(hospital_id, hospital_name)` pairs, row order. -/
def hospitalsOf (f : Frame) : List (Str × Str) :=
  dedupFirst (f.rows.filterMap (fun r =>
    match f.cell r (str "hospital_id"), f.cell r (str "hospital_name") with
    | some i, some n => some (i, n)
    | _, _ => none))

/-- The double loop of `get_all_distances`: all ordered pairs of distinct
hospitals with `hosp1['hospital_id'] < hosp2['hospital_id']`, in loop order. -/
def orderedPairs (hs : List (Str × Str)) : List ((Str × Str) × (Str × Str)) :=
  hs.flatMap (fun a => (hs.filter (fun b => decide (a.1 < b.1))).map (fun b => (a, b)))

/-- The body of the `get_all_distances` loop: a pair whose distance computation
returns an error dict is skipped, a raised exception aborts the whole loop,
and successes are collected in loop order. -/
noncomputable def distLoop (f : Frame) :
    List ((Str × Str) × (Str × Str)) → Outcome (List DistanceInfo)
  | [] => .ok []
  | (h1, h2) :: rest =>
    match calculate_distance (some f) h1.2 h2.2 with
    | .raised e => .raised e
    | .err _ => distLoop f rest
    | .ok d =>
      match distLoop f rest with
      | .ok l => .ok (d :: l)
      | .err e => .err e
      | .raised e => .raised e

/-- `HospitalDataTool.get_all_distances`: no empty-store guard (raises
`TypeError` on an empty store); else run the `id_a < id_b` double loop and
return `{"total_pairs": len(distances), "distances": distances}`. -/
noncomputable def get_all_distances (df : Option Frame) :
    Outcome (Nat × List DistanceInfo) :=
  match df with
  | none => .raised .typeError
  | some f =>
    match distLoop f (orderedPairs (hospitalsOf f)) with
    | .ok l => .ok (l.length, l)
    | .err e => .err e
    | .raised e => .raised e

/-! ## Date range -/

/-- The raw `date` column of the metrics frame, in row order. -/
def datesOf (f : Frame) : List Str := f.rows.filterMap (fun r => f.cell r (str "date"))

/-- `sorted(self.df['date'].unique())`: distinct dates sorted ascending in the
lexicographic code-point order, which is Python's string order.  (Insertion
sort; on distinct values every correct ascending sort agrees with Python's.) -/
def sortedDates (f : Frame) : List Str :=
  List.insertionSort (· ≤ ·) (dedupFirst (datesOf f))

/-- Success payload of `get_date_range`. -/
structure DateRange where
  start_date : Str
  end_date : Str
  total_days : Nat
  all_dates : List Str
  deriving DecidableEq, Repr

/-- `HospitalDataTool.get_date_range`: no empty-store guard (`self.df['date']`
raises `TypeError` on an empty store); else sort the distinct dates and return
`{dates[0], dates[-1], len(dates), dates}` (`dates[0]` raises `IndexError` on
a dataset with no dates). -/
def get_date_range (df : Option Frame) : Outcome DateRange :=
  match df with
  | none => .raised .typeError
  | some f =>
    match sortedDates f with
    | [] => .raised .indexError
    | d :: ds =>
      .ok { start_date := d,
            end_date := (d :: ds).getLast (List.cons_ne_nil d ds),
            total_days := (d :: ds).length,
            all_dates := d :: ds }

/-! ## DepartmentDataTool

Unlike `HospitalDataTool`, the three sub-tools guard every operation with an
explicit `if self.df is None` check. -/

/-- `DepartmentDataTool.get_all_departments`. -/
def get_all_departments (df : Option Frame) : List (List Str) :=
  match df with
  | none => []
  | some f => f.rows

/-- `DepartmentDataTool.get_department_by_name`: case-insensitive substring
match on `department_name`, first match or an error dict. -/
def get_department_by_name (df : Option Frame) (nm : Str) : Outcome (List Str) :=
  match df with
  | none => .err .departmentDataNotFound
  | some f =>
    match filterContains f (str "department_name") nm with
    | [] => .err (.departmentNotFound nm)
    | r :: _ => .ok r

/-- `DepartmentDataTool.get_departments_by_floor`. -/
def get_departments_by_floor (df : Option Frame) (fl : Str) : List (List Str) :=
  match df with
  | none => []
  | some f => filterContains f (str "floor") fl

/-- `DepartmentDataTool.get_departments_by_building`. -/
def get_departments_by_building (df : Option Frame) (b : Str) : List (List Str) :=
  match df with
  | none => []
  | some f => filterContains f (str "building") b

/-! ## DoctorDataTool -/

/-- `DoctorDataTool.get_all_doctors`. -/
def get_all_doctors (df : Option Frame) : List (List Str) :=
  match df with
  | none => []
  | some f => f.rows

/-- `DoctorDataTool.get_doctor_by_name`. -/
def get_doctor_by_name (df : Option Frame) (nm : Str) : Outcome (List Str) :=
  match df with
  | none => .err .doctorDataNotFound
  | some f =>
    match filterContains f (str "doctor_name") nm with
    | [] => .err (.doctorNotFound nm)
    | r :: _ => .ok r

/-- `DoctorDataTool.get_doctors_by_specialization`. -/
def get_doctors_by_specialization (df : Option Frame) (sp : Str) : List (List Str) :=
  match df with
  | none => []
  | some f => filterContains f (str "specialization") sp

/-- `DoctorDataTool.get_doctors_by_department`: exact match on
`department_id`. -/
def get_doctors_by_department (df : Option Frame) (dept : Str) : List (List Str) :=
  match df with
  | none => []
  | some f => filterEq f (str "department_id") dept

/-- `DoctorDataTool.get_available_doctors`: the rows whose `available_days`
text contains `day` as a case-insensitive substring (`str.contains` over the
delimited availability text, not a parsed weekday-set membership test), in
dataset row order. -/
def get_available_doctors (df : Option Frame) (day : Str) : List (List Str) :=
  match df with
  | none => []
  | some f => filterContains f (str "available_days") day

/-! ## PatientDataTool -/

/-- `PatientDataTool.get_all_patients`. -/
def get_all_patients (df : Option Frame) : List (List Str) :=
  match df with
  | none => []
  | some f => f.rows

/-- `PatientDataTool.get_patient_by_name`: case-insensitive substring match. -/
def get_patient_by_name (df : Option Frame) (nm : Str) : Outcome (List Str) :=
  match df with
  | none => .err .patientDataNotFound
  | some f =>
    match filterContains f (str "patient_name") nm with
    | [] => .err (.patientNotFound nm)
    | r :: _ => .ok r

/-- `PatientDataTool.get_patient_by_room`: exact match on `room_number`
(`self.df['room_number'] == room_number`, not a substring test), first match
or a typed not-found error dict. -/
def get_patient_by_room (df : Option Frame) (room : Str) : Outcome (List Str) :=
  match df with
  | none => .err .patientDataNotFound
  | some f =>
    match filterEq f (str "room_number") room with
    | [] => .err (.noPatientInRoom room)
    | r :: _ => .ok r

/-- `PatientDataTool.get_patients_by_disease`. -/
def get_patients_by_disease (df : Option Frame) (d : Str) : List (List Str) :=
  match df with
  | none => []
  | some f => filterContains f (str "disease") d

/-- `PatientDataTool.get_patients_by_doctor`: exact match on
`attending_doctor_id`. -/
def get_patients_by_doctor (df : Option Frame) (docId : Str) : List (List Str) :=
  match df with
  | none => []
  | some f => filterEq f (str "attending_doctor_id") docId

/-- `PatientDataTool.get_patients_by_floor`. -/
def get_patients_by_floor (df : Option Frame) (fl : Str) : List (List Str) :=
  match df with
  | none => []
  | some f => filterContains f (str "floor") fl

/-- Success payload of `get_direction_to_patient`. -/
structure Directions where
  patient_name : Str
  room_number : Str
  floor : Str
  building : Str
  directions : Str
  deriving DecidableEq, Repr

/-- `PatientDataTool.get_direction_to_patient`: resolve the patient by
case-insensitive substring name match, then return the room/floor/building and
free-text directions of the first match. -/
def get_direction_to_patient (df : Option Frame) (nm : Str) : Outcome Directions :=
  match df with
  | none => .err .patientDataNotFound
  | some f =>
    match filterContains f (str "patient_name") nm with
    | [] => .err (.patientNotFound nm)
    | r :: _ =>
      .ok { patient_name := (f.cell r (str "patient_name")).getD [],
            room_number := (f.cell r (str "room_number")).getD [],
            floor := (f.cell r (str "floor")).getD [],
            building := (f.cell r (str "building")).getD [],
            directions := (f.cell r (str "direction_to_room")).getD [] }

/-- Does this row's `location` cell parse as a numeric coordinate pair?  (The
decidable form of the hypothesis "all location fields parse".) -/
def rowCoordsOk (f : Frame) (r : List Str) : Bool :=
  match f.cell r (str "location") with
  | none => false
  | some loc => (parseLatLon loc).isOk

/-- Counting form of the `get_all_distances` double loop: for each element of
`xs`, how many elements of `ys` have a strictly larger key. -/
def ltCounts (xs ys : List (Str × Str)) : Nat :=
  (xs.map (fun a => (ys.filter (fun b => decide (a.1 < b.1))).length)).sum

/-! ## Concrete frames used to instantiate the theorems -/

/-- First sample metrics row: hospital `H001` on `2024-10-20`. -/
def rowCG1 : List Str :=
  [str "H001", str "City General", str "2024-10-20", str "East",
    str "40.7128,-74.0060", str "500"]

/-- Second sample metrics row: hospital `H002` on `2024-10-20`. -/
def rowMH : List Str :=
  [str "H002", str "Metro Health", str "2024-10-20", str "West",
    str "34.0522,-118.2437", str "400"]

/-- Third sample metrics row: hospital `H001` again, on `2024-10-21`. -/
def rowCG2 : List Str :=
  [str "H001", str "City General", str "2024-10-21", str "East",
    str "40.7128,-74.0060", str "505"]

/-- A small already-migrated metrics frame: two hospitals with coordinate-form
locations, one of them with two dates. -/
def sampleMetrics : Frame :=
  { columns := [str "hospital_id", str "hospital_name", str "date", str "region",
      str "location", str "bed_capacity"],
    rows := [rowCG1, rowMH, rowCG2] }

/-- A metrics frame whose `location` field holds a free-text place name, the
form `_add_location_column` itself writes. -/
def placeNameMetrics : Frame :=
  { columns := [str "hospital_id", str "hospital_name", str "date", str "region",
      str "location"],
    rows := [[str "H001", str "City General", str "2024-10-20", str "East",
      str "New York, NY"]] }

/-- A small patient frame: two patients whose names share the token `Jo`, in
distinct rooms. -/
def samplePatients : Frame :=
  { columns := [str "patient_name", str "room_number"],
    rows := [[str "Alice Johnson", str "301"], [str "Robert Johnson", str "302"]] }

/-! ## Library lemmas about the embedding -/

/-- Membership in the first-occurrence deduplication (auxiliary form). -/
theorem mem_dedupFirstAux {α : Type} [DecidableEq α] (x : α) (l : List α) :
    ∀ seen, x ∈ dedupFirstAux seen l ↔ (x ∈ l ∧ x ∉ seen) := by
  induction l with
  | nil => intro seen; simp [dedupFirstAux]
  | cons a l ih =>
    intro seen
    by_cases ha : a ∈ seen
    · simp only [dedupFirstAux, if_pos ha, ih seen]
      constructor
      · rintro ⟨hx, hs⟩
        exact ⟨List.mem_cons_of_mem a hx, hs⟩
      · rintro ⟨hx, hs⟩
        rcases List.mem_cons.mp hx with rfl | hx
        · exact absurd ha hs
        · exact ⟨hx, hs⟩
    · simp only [dedupFirstAux, if_neg ha]
      constructor
      · intro hmem
        rcases List.mem_cons.mp hmem with rfl | hmem
        · exact ⟨List.mem_cons_self x l, ha⟩
        · obtain ⟨hx, hs⟩ := (ih (a :: seen)).mp hmem
          exact ⟨List.mem_cons_of_mem a hx, fun h => hs (List.mem_cons_of_mem a h)⟩
      · rintro ⟨hx, hs⟩
        by_cases hxa : x = a
        · subst hxa; exact List.mem_cons_self x _
        · rcases List.mem_cons.mp hx with rfl | hx
          · exact absurd rfl hxa
          · refine List.mem_cons_of_mem a ((ih (a :: seen)).mpr ⟨hx, ?_⟩)
            intro h
            rcases List.mem_cons.mp h with rfl | h
            · exact hxa rfl
            · exact hs h

/-- The first-occurrence deduplication has no duplicates (auxiliary form). -/
theorem nodup_dedupFirstAux {α : Type} [DecidableEq α] (l : List α) :
    ∀ seen, (dedupFirstAux seen l).Nodup := by
  induction l with
  | nil => intro seen; simp [dedupFirstAux]
  | cons a l ih =>
    intro seen
    by_cases ha : a ∈ seen
    · simp only [dedupFirstAux, if_pos ha]; exact ih seen
    · simp only [dedupFirstAux, if_neg ha]
      rw [List.nodup_cons]
      refine ⟨fun hmem => ?_, ih (a :: seen)⟩
      obtain ⟨-, hs⟩ := (mem_dedupFirstAux a l (a :: seen)).mp hmem
      exact hs (List.mem_cons_self a seen)

/-- `dedupFirst` preserves membership. -/
theorem mem_dedupFirst {α : Type} [DecidableEq α] (x : α) (l : List α) :
    x ∈ dedupFirst l ↔ x ∈ l := by
  simp [dedupFirst, mem_dedupFirstAux]

/-- `dedupFirst` has no duplicates. -/
theorem nodup_dedupFirst {α : Type} [DecidableEq α] (l : List α) :
    (dedupFirst l).Nodup :=
  nodup_dedupFirstAux l []

/-! ## Claim theorems -/

/-- C10: when the metrics CSV is absent at startup (`self.df is None`, embedded
as the `none` store), `get_hospital_count` returns `0` and
`get_hospital_names` returns the empty list — these two operations carry an
explicit empty-store guard. -/
theorem empty_store_probe_ops :
    get_hospital_count none = 0 ∧ get_hospital_names none = [] :=
  ⟨rfl, rfl⟩

/-- C1 counterexample: with the metrics CSV absent (`none` store),
`get_date_range` and `get_column_value` do not return an empty-collection or
typed not-found result — they propagate raised exceptions (`TypeError` from
`self.df['date']`, `AttributeError` from `self.df.columns`), refuting the
claim that every `HospitalDataTool` operation degrades gracefully. -/
theorem empty_store_raises_cex :
    get_date_range none = .raised .typeError ∧
    get_column_value none (str "City General") (str "bed_capacity") none =
      .raised .attributeError :=
  ⟨rfl, rfl⟩

/-- C1 amended: on an absent dataset source the empty/not-found guarantee
holds for every `DepartmentDataTool`, `DoctorDataTool` and `PatientDataTool`
operation and for the two guarded `HospitalDataTool` operations
(`get_hospital_count`, `get_hospital_names`); every other
`HospitalDataTool` operation instead raises (`TypeError`/`AttributeError`)
on its unguarded `self.df` access. -/
theorem empty_store_behavior (nm nm2 d c fl b sp dept day room docId dis : Str)
    (dt : Option Str) :
    get_hospital_count none = 0 ∧
    get_hospital_names none = [] ∧
    get_hospital_details_by_date none nm d = .raised .typeError ∧
    get_column_value none nm c dt = .raised .attributeError ∧
    get_column_names none = .raised .attributeError ∧
    get_hospital_location none nm = .raised .typeError ∧
    calculate_distance none nm nm2 = .raised .typeError ∧
    get_all_distances none = .raised .typeError ∧
    get_date_range none = .raised .typeError ∧
    get_all_departments none = [] ∧
    get_department_by_name none nm = .err .departmentDataNotFound ∧
    get_departments_by_floor none fl = [] ∧
    get_departments_by_building none b = [] ∧
    get_all_doctors none = [] ∧
    get_doctor_by_name none nm = .err .doctorDataNotFound ∧
    get_doctors_by_specialization none sp = [] ∧
    get_doctors_by_department none dept = [] ∧
    get_available_doctors none day = [] ∧
    get_all_patients none = [] ∧
    get_patient_by_name none nm = .err .patientDataNotFound ∧
    get_patient_by_room none room = .err .patientDataNotFound ∧
    get_patients_by_disease none dis = [] ∧
    get_patients_by_doctor none docId = [] ∧
    get_patients_by_floor none fl = [] ∧
    get_direction_to_patient none nm = .err .patientDataNotFound :=
  ⟨rfl, rfl, rfl, rfl, rfl, rfl, rfl, rfl, rfl, rfl, rfl, rfl, rfl, rfl, rfl,
   rfl, rfl, rfl, rfl, rfl, rfl, rfl, rfl, rfl, rfl⟩

/-- C7: the location-column migration is idempotent: on a frame that already
has a `location` column it returns the frame unchanged with no persisted
rewrite, and a second run after any first run is always such a no-op. -/
theorem add_location_column_idempotent (f : Frame)
    (h : str "location" ∈ f.columns) :
    add_location_column (some f) = (some f, false) ∧
    ∀ g : Frame, add_location_column ((add_location_column (some g)).1) =
      ((add_location_column (some g)).1, false) := by
  constructor
  · simp [add_location_column, h]
  · intro g
    by_cases hg : str "location" ∈ g.columns
    · simp [add_location_column, hg]
    · simp [add_location_column, hg]

/-- C7 witness: the already-migrated `sampleMetrics` frame is left unchanged. -/
theorem add_location_column_idempotent_witness :
    str "location" ∈ sampleMetrics.columns ∧
    (add_location_column (some sampleMetrics) = (some sampleMetrics, false) ∧
     ∀ g : Frame, add_location_column ((add_location_column (some g)).1) =
       ((add_location_column (some g)).1, false)) :=
  ⟨by decide, add_location_column_idempotent sampleMetrics (by decide)⟩

/-- C4: on a loaded metrics frame, a `column_name` not among the columns
reported by `get_column_names` makes `get_column_value` return the
`columnNotFound` (InvalidInput) error dict for every hospital-name argument
and date — never the `hospitalNotFound` (NotFound) one: the column-existence
check precedes hospital resolution. -/
theorem get_column_value_column_check_precedes (f : Frame) (nm c : Str)
    (dt : Option Str) (hc : c ∉ f.columns) :
    get_column_names (some f) = .ok f.columns ∧
    get_column_value (some f) nm c dt = .err (.columnNotFound c) ∧
    get_column_value (some f) nm c dt ≠ .err (.hospitalNotFound nm) := by
  refine ⟨rfl, ?_, ?_⟩
  · simp [get_column_value, hc]
  · simp [get_column_value, hc]

/-- C4 witness: a nonexistent column on the sample frame, queried with a
hospital name that is absent as well, still reports `columnNotFound`. -/
theorem get_column_value_column_check_precedes_witness :
    str "zzz" ∉ sampleMetrics.columns ∧
    (get_column_names (some sampleMetrics) = .ok sampleMetrics.columns ∧
     get_column_value (some sampleMetrics) (str "Nowhere Clinic") (str "zzz") none =
       .err (.columnNotFound (str "zzz")) ∧
     get_column_value (some sampleMetrics) (str "Nowhere Clinic") (str "zzz") none ≠
       .err (.hospitalNotFound (str "Nowhere Clinic"))) :=
  ⟨by decide,
   get_column_value_column_check_precedes sampleMetrics (str "Nowhere Clinic")
     (str "zzz") none (by decide)⟩

/-- C8: `get_available_doctors day` returns exactly the doctor rows whose
`available_days` cell contains `day` as a case-insensitive substring (a
textual containment test over the delimited list), and it returns them in
dataset row order (as a sublist of the rows). -/
theorem get_available_doctors_contains (f : Frame) (day : Str) :
    (∀ r, r ∈ get_available_doctors (some f) day ↔
      r ∈ f.rows ∧ ∃ s, f.cell r (str "available_days") = some s ∧
        containsCI s day = true) ∧
    (get_available_doctors (some f) day).Sublist f.rows := by
  constructor
  · intro r
    simp only [get_available_doctors, filterContains, List.mem_filter]
    constructor
    · rintro ⟨hr, hp⟩
      refine ⟨hr, ?_⟩
      cases hcell : f.cell r (str "available_days") with
      | none => rw [hcell] at hp; simp at hp
      | some s => rw [hcell] at hp; exact ⟨s, rfl, hp⟩
    · rintro ⟨hr, s, hcell, hs⟩
      refine ⟨hr, ?_⟩
      rw [hcell]
      exact hs
  · exact List.filter_sublist _

/-- C9: `get_patient_by_room` matches the `room_number` field exactly: if a
unique row carries the queried room number it is returned, and if no row
does, the typed `noPatientInRoom` not-found dict is returned. -/
theorem get_patient_by_room_exact (f : Frame) (room : Str) :
    (∀ r, r ∈ f.rows → f.cell r (str "room_number") = some room →
      (∀ q ∈ f.rows, f.cell q (str "room_number") = some room → q = r) →
      get_patient_by_room (some f) room = .ok r) ∧
    ((∀ q ∈ f.rows, f.cell q (str "room_number") ≠ some room) →
      get_patient_by_room (some f) room = .err (.noPatientInRoom room)) := by
  constructor
  · intro r hr hcell huniq
    have hne : filterEq f (str "room_number") room ≠ [] := by
      intro hnil
      have hmem : r ∈ filterEq f (str "room_number") room := by
        simp [filterEq, List.mem_filter, hr, hcell]
      rw [hnil] at hmem
      exact absurd hmem (List.not_mem_nil r)
    obtain ⟨r0, rest, hcons⟩ := List.exists_cons_of_ne_nil hne
    have hr0 : r0 ∈ filterEq f (str "room_number") room := by
      rw [hcons]; exact List.mem_cons_self _ _
    obtain ⟨hr0rows, hr0p⟩ := List.mem_filter.mp hr0
    have hre : r0 = r := huniq r0 hr0rows (by simpa using hr0p)
    subst hre
    simp [get_patient_by_room, hcons]
  · intro hnone
    have hnil : filterEq f (str "room_number") room = [] := by
      refine List.filter_eq_nil_iff.mpr ?_
      intro q hq
      simpa using hnone q hq
    simp [get_patient_by_room, hnil]

/-- C9 witness: room `301` resolves uniquely to Alice Johnson even though both
sample patients' names contain the token `Johnson`; room `999` is a typed
not-found. -/
theorem get_patient_by_room_exact_witness :
    get_patient_by_room (some samplePatients) (str "301") =
      .ok [str "Alice Johnson", str "301"] ∧
    get_patient_by_room (some samplePatients) (str "999") =
      .err (.noPatientInRoom (str "999")) :=
  ⟨(get_patient_by_room_exact samplePatients (str "301")).1
      [str "Alice Johnson", str "301"] (by decide) (by decide) (by decide),
   (get_patient_by_room_exact samplePatients (str "999")).2 (by decide)⟩

/-- C2 counterexample: on a row whose `location` field is the free-text place
name `New York, NY` (the very format `_add_location_column` writes),
`get_hospital_location` does not return a discriminated failure outcome: the
`float('New York')` conversion raises `ValueError`, which propagates. -/
theorem location_place_name_raises_cex :
    get_hospital_location (some placeNameMetrics) (str "City General") =
      .raised .valueError := by decide

/-- C2 amended: when the resolved hospital's `location` field is not a
two-token numeric pair, `get_hospital_location` propagates the raised
exception of the coordinate parse (`ValueError` on a non-numeric token,
`IndexError` on a missing second token) instead of returning a
ParseError-style discriminated failure. -/
theorem get_hospital_location_raises_on_unparseable (f : Frame) (nm : Str)
    (r1 : List Str) (rest : List (List Str)) (loc : Str) (e : PyExc)
    (hf : filterEq f (str "hospital_name") nm = r1 :: rest)
    (hcell : f.cell r1 (str "location") = some loc)
    (hp : parseLatLon loc = .raised e) :
    get_hospital_location (some f) nm = .raised e := by
  simp only [get_hospital_location, hf, hcell, hp]

/-- C2 witness: the amended statement applied to the place-name frame. -/
theorem get_hospital_location_raises_on_unparseable_witness :
    filterEq placeNameMetrics (str "hospital_name") (str "City General") =
      [[str "H001", str "City General", str "2024-10-20", str "East",
        str "New York, NY"]] ∧
    placeNameMetrics.cell
      [str "H001", str "City General", str "2024-10-20", str "East",
        str "New York, NY"] (str "location") = some (str "New York, NY") ∧
    parseLatLon (str "New York, NY") = .raised .valueError ∧
    get_hospital_location (some placeNameMetrics) (str "City General") =
      .raised .valueError :=
  ⟨by decide, by decide, by decide,
   get_hospital_location_raises_on_unparseable placeNameMetrics
     (str "City General")
     [str "H001", str "City General", str "2024-10-20", str "East",
       str "New York, NY"] [] (str "New York, NY") .valueError
     (by decide) (by decide) (by decide)⟩

/-- Characterization of a successful `calculate_distance` call in terms of the
resolved first rows and their parsed coordinates. -/
theorem calculate_distance_ok (f : Frame) (nm1 nm2 : Str)
    (r1 r2 : List Str) (s1 s2 : List (List Str)) (loc1 loc2 : Str)
    (la1 lo1 la2 lo2 : Dec)
    (h1 : filterEq f (str "hospital_name") nm1 = r1 :: s1)
    (h2 : filterEq f (str "hospital_name") nm2 = r2 :: s2)
    (hc1 : f.cell r1 (str "location") = some loc1)
    (hc2 : f.cell r2 (str "location") = some loc2)
    (hp1 : parseLatLon loc1 = .ok (la1, lo1))
    (hp2 : parseLatLon loc2 = .ok (la2, lo2)) :
    calculate_distance (some f) nm1 nm2 =
      .ok { from_hospital := nm1, to_hospital := nm2,
            distance_km := round2 (haversine_km la1.toReal lo1.toReal
              la2.toReal lo2.toReal),
            from_latitude := la1, from_longitude := lo1,
            to_latitude := la2, to_longitude := lo2 } := by
  simp only [calculate_distance, h1, h2, hc1, hc2, hp1, hp2]

/-- The haversine intermediate `a` is symmetric in its two points. -/
theorem haversine_a_symm (lat1 lon1 lat2 lon2 : ℝ) :
    haversine_a lat1 lon1 lat2 lon2 = haversine_a lat2 lon2 lat1 lon1 := by
  unfold haversine_a radians
  have hsin : ∀ x y : ℝ, Real.sin ((x - y) * Real.pi / 180 / 2) ^ 2
      = Real.sin ((y - x) * Real.pi / 180 / 2) ^ 2 := by
    intro x y
    have hx : (x - y) * Real.pi / 180 / 2 = -((y - x) * Real.pi / 180 / 2) := by
      ring
    rw [hx, Real.sin_neg]
    ring
  rw [hsin lat2 lat1, hsin lon2 lon1,
    mul_comm (Real.cos (lat1 * Real.pi / 180)) (Real.cos (lat2 * Real.pi / 180))]

/-- The haversine great-circle distance is symmetric in its two points. -/
theorem haversine_km_symm (lat1 lon1 lat2 lon2 : ℝ) :
    haversine_km lat1 lon1 lat2 lon2 = haversine_km lat2 lon2 lat1 lon1 := by
  unfold haversine_km
  rw [haversine_a_symm lat1 lon1 lat2 lon2]

/-- C5: for two hospital names that both resolve to rows with parseable
numeric coordinates, `calculate_distance` reports the same `distance_km` in
both argument orders — exactly equal in the real-number model, hence within
the 1e-9 tolerance after the rounding to 2 decimal places. -/
theorem calculate_distance_symm (f : Frame) (a b : Str)
    (rA rB : List Str) (sA sB : List (List Str)) (locA locB : Str)
    (laA loA laB loB : Dec)
    (hA : filterEq f (str "hospital_name") a = rA :: sA)
    (hB : filterEq f (str "hospital_name") b = rB :: sB)
    (hcA : f.cell rA (str "location") = some locA)
    (hcB : f.cell rB (str "location") = some locB)
    (hpA : parseLatLon locA = .ok (laA, loA))
    (hpB : parseLatLon locB = .ok (laB, loB)) :
    ∃ dAB dBA, calculate_distance (some f) a b = .ok dAB ∧
      calculate_distance (some f) b a = .ok dBA ∧
      dAB.distance_km = dBA.distance_km ∧
      |dAB.distance_km - dBA.distance_km| ≤ 1 / 10 ^ 9 := by
  refine ⟨_, _,
    calculate_distance_ok f a b rA rB sA sB locA locB laA loA laB loB
      hA hB hcA hcB hpA hpB,
    calculate_distance_ok f b a rB rA sB sA locB locA laB loB laA loA
      hB hA hcB hcA hpB hpA, ?_, ?_⟩
  · dsimp only
    rw [haversine_km_symm]
  · dsimp only
    rw [haversine_km_symm laA.toReal loA.toReal laB.toReal loB.toReal,
      sub_self, abs_zero]
    norm_num

/-- C5 witness: symmetry instantiated on the two sample hospitals. -/
theorem calculate_distance_symm_witness :
    filterEq sampleMetrics (str "hospital_name") (str "City General") =
      [rowCG1, rowCG2] ∧
    filterEq sampleMetrics (str "hospital_name") (str "Metro Health") =
      [rowMH] ∧
    sampleMetrics.cell rowCG1 (str "location") =
      some (str "40.7128,-74.0060") ∧
    sampleMetrics.cell rowMH (str "location") =
      some (str "34.0522,-118.2437") ∧
    parseLatLon (str "40.7128,-74.0060") = .ok (⟨407128, -4⟩, ⟨-740060, -4⟩) ∧
    parseLatLon (str "34.0522,-118.2437") =
      .ok (⟨340522, -4⟩, ⟨-1182437, -4⟩) ∧
    ∃ dAB dBA,
      calculate_distance (some sampleMetrics) (str "City General")
        (str "Metro Health") = .ok dAB ∧
      calculate_distance (some sampleMetrics) (str "Metro Health")
        (str "City General") = .ok dBA ∧
      dAB.distance_km = dBA.distance_km ∧
      |dAB.distance_km - dBA.distance_km| ≤ 1 / 10 ^ 9 :=
  ⟨by decide, by decide, by decide, by decide, by decide, by decide,
   calculate_distance_symm sampleMetrics (str "City General")
     (str "Metro Health") rowCG1 rowMH [rowCG2] [] (str "40.7128,-74.0060")
     (str "34.0522,-118.2437") ⟨407128, -4⟩ ⟨-740060, -4⟩ ⟨340522, -4⟩
     ⟨-1182437, -4⟩ (by decide) (by decide) (by decide) (by decide)
     (by decide) (by decide)⟩

/-- In a list sorted ascending, every element is at most the last one. -/
theorem sorted_le_getLast :
    ∀ (l : List Str), l.Sorted (· ≤ ·) → ∀ (hl : l ≠ []) (x : Str), x ∈ l →
      x ≤ l.getLast hl := by
  intro l
  induction l with
  | nil => intro _ hl; exact absurd rfl hl
  | cons d ds ih =>
    intro hs hl x hx
    cases ds with
    | nil =>
      have hxd : x = d := by simpa using hx
      subst hxd
      simp [List.getLast]
    | cons e es =>
      rw [List.getLast_cons (List.cons_ne_nil e es)]
      rcases List.mem_cons.mp hx with rfl | hx
      · exact (List.sorted_cons.mp hs).1 _ (List.getLast_mem (List.cons_ne_nil e es))
      · exact ih (List.sorted_cons.mp hs).2 (List.cons_ne_nil e es) x hx

/-- C6: on a metrics frame with at least one date value, `get_date_range`
returns the distinct dates sorted ascending (in the lexicographic code-point
order of the `YYYY-MM-DD` strings), with `start_date` the least and `end_date`
the greatest date and `total_days` the number of distinct dates. -/
theorem get_date_range_sorted (f : Frame) (hne : datesOf f ≠ []) :
    ∃ dr, get_date_range (some f) = .ok dr ∧
      dr.all_dates = sortedDates f ∧
      dr.all_dates.Nodup ∧
      (∀ x, x ∈ dr.all_dates ↔ x ∈ datesOf f) ∧
      dr.all_dates.Sorted (· ≤ ·) ∧
      dr.total_days = dr.all_dates.length ∧
      dr.total_days = (dedupFirst (datesOf f)).length ∧
      dr.start_date ∈ dr.all_dates ∧
      dr.end_date ∈ dr.all_dates ∧
      (∀ x ∈ dr.all_dates, dr.start_date ≤ x ∧ x ≤ dr.end_date) ∧
      dr.start_date ≤ dr.end_date := by
  have hperm : List.Perm (sortedDates f) (dedupFirst (datesOf f)) :=
    List.perm_insertionSort (· ≤ ·) (dedupFirst (datesOf f))
  have hsorted : (sortedDates f).Sorted (· ≤ ·) :=
    List.sorted_insertionSort (· ≤ ·) (dedupFirst (datesOf f))
  have hmem : ∀ x, x ∈ sortedDates f ↔ x ∈ datesOf f := by
    intro x
    rw [hperm.mem_iff, mem_dedupFirst]
  have hnodup : (sortedDates f).Nodup :=
    hperm.nodup_iff.mpr (nodup_dedupFirst _)
  have hsne : sortedDates f ≠ [] := by
    obtain ⟨d, hd⟩ := List.exists_mem_of_ne_nil _ hne
    intro hnil
    have : d ∈ sortedDates f := (hmem d).mpr hd
    rw [hnil] at this
    exact absurd this (List.not_mem_nil d)
  obtain ⟨d, ds, hcons⟩ := List.exists_cons_of_ne_nil hsne
  have hnodup2 : (d :: ds).Nodup := by rw [← hcons]; exact hnodup
  have hsorted2 : (d :: ds).Sorted (· ≤ ·) := by rw [← hcons]; exact hsorted
  have hmem2 : ∀ x, x ∈ d :: ds ↔ x ∈ datesOf f := by
    intro x; rw [← hcons]; exact hmem x
  have hlen2 : (d :: ds).length = (dedupFirst (datesOf f)).length := by
    rw [← hcons]; exact hperm.length_eq
  refine ⟨DateRange.mk d ((d :: ds).getLast (List.cons_ne_nil d ds))
      ((d :: ds).length) (d :: ds),
    by simp only [get_date_range, hcons], ?_, ?_, ?_, ?_, rfl, ?_, ?_, ?_, ?_, ?_⟩
  · exact hcons.symm
  · exact hnodup2
  · exact hmem2
  · exact hsorted2
  · exact hlen2
  · exact List.mem_cons_self d ds
  · exact List.getLast_mem (List.cons_ne_nil d ds)
  · show ∀ x ∈ d :: ds, d ≤ x ∧ x ≤ (d :: ds).getLast (List.cons_ne_nil d ds)
    intro x hx
    refine ⟨?_, sorted_le_getLast (d :: ds) hsorted2 (List.cons_ne_nil d ds) x hx⟩
    rcases List.mem_cons.mp hx with rfl | hx2
    · exact le_refl x
    · exact List.rel_of_sorted_cons hsorted2 x hx2
  · exact sorted_le_getLast (d :: ds) hsorted2 (List.cons_ne_nil d ds) d
      (List.mem_cons_self d ds)

/-- C6 witness: the date range of the sample metrics frame. -/
theorem get_date_range_sorted_witness :
    datesOf sampleMetrics ≠ [] ∧
    ∃ dr, get_date_range (some sampleMetrics) = .ok dr ∧
      dr.all_dates = sortedDates sampleMetrics ∧
      dr.all_dates.Nodup ∧
      (∀ x, x ∈ dr.all_dates ↔ x ∈ datesOf sampleMetrics) ∧
      dr.all_dates.Sorted (· ≤ ·) ∧
      dr.total_days = dr.all_dates.length ∧
      dr.total_days = (dedupFirst (datesOf sampleMetrics)).length ∧
      dr.start_date ∈ dr.all_dates ∧
      dr.end_date ∈ dr.all_dates ∧
      (∀ x ∈ dr.all_dates, dr.start_date ≤ x ∧ x ≤ dr.end_date) ∧
      dr.start_date ≤ dr.end_date :=
  ⟨by decide, get_date_range_sorted sampleMetrics (by decide)⟩

/-- The length of the `get_all_distances` pair enumeration is its counting
form. -/
theorem orderedPairs_length (hs : List (Str × Str)) :
    (orderedPairs hs).length = ltCounts hs hs := by
  simp [orderedPairs, ltCounts, List.length_flatMap, Function.comp_def]

/-- For an element whose key occurs nowhere in `t`, the elements of `t` split
exactly into those with a larger and those with a smaller key. -/
theorem count_split (a : Str × Str) (t : List (Str × Str))
    (h : ∀ x ∈ t, x.1 ≠ a.1) :
    (t.filter (fun b => decide (a.1 < b.1))).length +
      (t.filter (fun b => decide (b.1 < a.1))).length = t.length := by
  induction t with
  | nil => simp
  | cons x t ih =>
    have hx : x.1 ≠ a.1 := h x (List.mem_cons_self x t)
    have ht : ∀ y ∈ t, y.1 ≠ a.1 := fun y hy => h y (List.mem_cons_of_mem x hy)
    have hrec := ih ht
    rcases lt_or_gt_of_ne (Ne.symm hx) with hlt | hgt
    · have h2 : ¬ (x.1 < a.1) := lt_asymm hlt
      simp only [List.filter_cons, decide_eq_true_eq, if_pos hlt, if_neg h2,
        List.length_cons]
      omega
    · have h2 : ¬ (a.1 < x.1) := lt_asymm hgt
      simp only [List.filter_cons, decide_eq_true_eq, if_pos hgt, if_neg h2,
        List.length_cons]
      omega

/-- Prepending an element to the inner list adds, for each outer element, one
exactly when the outer key is smaller. -/
theorem ltCounts_cons (a : Str × Str) (xs ys : List (Str × Str)) :
    ltCounts xs (a :: ys) =
      (xs.filter (fun x => decide (x.1 < a.1))).length + ltCounts xs ys := by
  induction xs with
  | nil => simp [ltCounts]
  | cons x xs ih =>
    simp only [ltCounts, List.map_cons, List.sum_cons, List.filter_cons,
      decide_eq_true_eq] at ih ⊢
    by_cases hx : x.1 < a.1
    · simp only [if_pos hx, List.length_cons]
      omega
    · simp only [if_neg hx]
      omega

/-- With pairwise-distinct keys, the `id_a < id_b` double loop enumerates each
unordered pair of distinct elements exactly once: twice its count is `n²−n`. -/
theorem ltCounts_self (l : List (Str × Str)) (h : (l.map Prod.fst).Nodup) :
    2 * ltCounts l l = l.length * l.length - l.length := by
  induction l with
  | nil => simp [ltCounts]
  | cons a t ih =>
    rw [List.map_cons] at h
    have hcons := List.nodup_cons.mp h
    have hkey : ∀ x ∈ t, x.1 ≠ a.1 := by
      intro x hx he
      exact hcons.1 (he ▸ List.mem_map_of_mem Prod.fst hx)
    have ht := ih hcons.2
    have hsplit := count_split a t hkey
    have e1 : ltCounts (a :: t) (a :: t) = t.length + ltCounts t t := by
      have e2 : ltCounts (a :: t) (a :: t) =
          ((a :: t).filter (fun b => decide (a.1 < b.1))).length +
            ltCounts t (a :: t) := by
        simp [ltCounts]
      have e3 : ((a :: t).filter (fun b => decide (a.1 < b.1))).length =
          (t.filter (fun b => decide (a.1 < b.1))).length := by
        simp [List.filter_cons, lt_irrefl]
      have e4 := ltCounts_cons a t t
      omega
    have hexp : (t.length + 1) * (t.length + 1) =
        t.length * t.length + 2 * t.length + 1 := by ring
    have hsub : (t.length + 1) * (t.length + 1) - (t.length + 1) =
        t.length * t.length + t.length := by omega
    have hge : t.length ≤ t.length * t.length := by
      rcases Nat.eq_zero_or_pos t.length with h0 | h0
      · simp [h0]
      · exact Nat.le_mul_of_pos_left _ h0
    simp only [e1, List.length_cons]
    rw [hsub]
    omega

/-- Every enumerated pair has a strictly increasing key. -/
theorem orderedPairs_strict (hs : List (Str × Str)) :
    ∀ p ∈ orderedPairs hs, p.1.1 < p.2.1 := by
  intro p hp
  simp only [orderedPairs, List.mem_flatMap, List.mem_map, List.mem_filter,
    decide_eq_true_eq] at hp
  obtain ⟨a, _, b, ⟨_, hlt⟩, rfl⟩ := hp
  exact hlt

/-- Both components of an enumerated pair come from the hospital table. -/
theorem orderedPairs_mem (hs : List (Str × Str)) :
    ∀ p ∈ orderedPairs hs, p.1 ∈ hs ∧ p.2 ∈ hs := by
  intro p hp
  simp only [orderedPairs, List.mem_flatMap, List.mem_map, List.mem_filter,
    decide_eq_true_eq] at hp
  obtain ⟨a, ha, b, ⟨hb, _⟩, rfl⟩ := hp
  exact ⟨ha, hb⟩

/-- With a duplicate-free hospital table the pair enumeration itself is
duplicate-free. -/
theorem orderedPairs_nodup (hs : List (Str × Str)) (h : hs.Nodup) :
    (orderedPairs hs).Nodup := by
  rw [orderedPairs, List.nodup_flatMap]
  constructor
  · intro a _
    exact List.Nodup.map
      (fun x y hxy => by simpa using congrArg Prod.snd hxy) (h.filter _)
  · refine h.imp ?_
    intro a b hab
    intro x hxa hxb
    obtain ⟨xa, -, rfl⟩ := List.mem_map.mp hxa
    obtain ⟨xb, -, hx⟩ := List.mem_map.mp hxb
    exact hab (congrArg Prod.fst hx.symm)

/-- A hospital listed in the deduplicated table resolves by name: the
name-filter is nonempty and its first row is a dataset row. -/
theorem hospitalsOf_resolves (f : Frame) (i nm : Str)
    (h : (i, nm) ∈ hospitalsOf f) :
    ∃ r s, filterEq f (str "hospital_name") nm = r :: s ∧ r ∈ f.rows := by
  rw [hospitalsOf, mem_dedupFirst] at h
  obtain ⟨r, hr, hg⟩ := List.mem_filterMap.mp h
  have hname : f.cell r (str "hospital_name") = some nm := by
    cases h1 : f.cell r (str "hospital_id") with
    | none => rw [h1] at hg; simp at hg
    | some i2 =>
      cases h2 : f.cell r (str "hospital_name") with
      | none => rw [h1, h2] at hg; simp at hg
      | some n2 =>
        rw [h1, h2] at hg
        simp only [Option.some.injEq, Prod.mk.injEq] at hg
        rw [hg.2]
  have hrf : r ∈ filterEq f (str "hospital_name") nm := by
    simp [filterEq, List.mem_filter, hr, hname]
  have hne : filterEq f (str "hospital_name") nm ≠ [] := by
    intro hnil
    rw [hnil] at hrf
    exact absurd hrf (List.not_mem_nil r)
  obtain ⟨r0, s, hcons⟩ := List.exists_cons_of_ne_nil hne
  have hr0 : r0 ∈ filterEq f (str "hospital_name") nm := by
    rw [hcons]; exact List.mem_cons_self r0 s
  exact ⟨r0, s, hcons, (List.mem_filter.mp hr0).1⟩

/-- If every dataset row has parseable coordinates, any two hospitals of the
table give a successful `calculate_distance` call. -/
theorem calculate_distance_succeeds (f : Frame)
    (hloc : ∀ r ∈ f.rows, rowCoordsOk f r = true)
    (i1 nm1 i2 nm2 : Str)
    (h1 : (i1, nm1) ∈ hospitalsOf f) (h2 : (i2, nm2) ∈ hospitalsOf f) :
    ∃ d, calculate_distance (some f) nm1 nm2 = .ok d := by
  obtain ⟨r1, s1, hc1, hr1⟩ := hospitalsOf_resolves f i1 nm1 h1
  obtain ⟨r2, s2, hc2, hr2⟩ := hospitalsOf_resolves f i2 nm2 h2
  have hl1 := hloc r1 hr1
  have hl2 := hloc r2 hr2
  rw [rowCoordsOk] at hl1 hl2
  cases hcell1 : f.cell r1 (str "location") with
  | none => rw [hcell1] at hl1; exact Bool.noConfusion hl1
  | some loc1 =>
    have hl1b : (parseLatLon loc1).isOk = true := by rw [hcell1] at hl1; exact hl1
    cases hp1 : parseLatLon loc1 with
    | err e => rw [hp1] at hl1b; exact Bool.noConfusion hl1b
    | raised e => rw [hp1] at hl1b; exact Bool.noConfusion hl1b
    | ok pr1 =>
      cases hcell2 : f.cell r2 (str "location") with
      | none => rw [hcell2] at hl2; exact Bool.noConfusion hl2
      | some loc2 =>
        have hl2b : (parseLatLon loc2).isOk = true := by
          rw [hcell2] at hl2; exact hl2
        cases hp2 : parseLatLon loc2 with
        | err e => rw [hp2] at hl2b; exact Bool.noConfusion hl2b
        | raised e => rw [hp2] at hl2b; exact Bool.noConfusion hl2b
        | ok pr2 =>
          obtain ⟨la1, lo1⟩ := pr1
          obtain ⟨la2, lo2⟩ := pr2
          exact ⟨_, calculate_distance_ok f nm1 nm2 r1 r2 s1 s2 loc1 loc2
            la1 lo1 la2 lo2 hc1 hc2 hcell1 hcell2 hp1 hp2⟩

/-- If every enumerated pair computes successfully, the loop returns one
distance entry per pair, in order. -/
theorem distLoop_ok (f : Frame) (ps : List ((Str × Str) × (Str × Str)))
    (h : ∀ p ∈ ps, ∃ d, calculate_distance (some f) p.1.2 p.2.2 = .ok d) :
    ∃ L, distLoop f ps = .ok L ∧ L.length = ps.length := by
  induction ps with
  | nil => exact ⟨[], rfl, rfl⟩
  | cons p ps ih =>
    obtain ⟨d, hd⟩ := h p (List.mem_cons_self p ps)
    obtain ⟨L, hL, hlen⟩ := ih (fun q hq => h q (List.mem_cons_of_mem p hq))
    obtain ⟨p1, p2⟩ := p
    refine ⟨d :: L, ?_, by simp [hlen]⟩
    simp only [distLoop]
    rw [hd, hL]

/-- Truncated-subtraction form of `n * (n - 1)`. -/
theorem nat_mul_pred (n : Nat) : n * (n - 1) = n * n - n := by
  cases n with
  | zero => simp
  | succ m =>
    have e1 : (m + 1) * (m + 1) = m * m + 2 * m + 1 := by ring
    have e2 : (m + 1) * m = m * m + m := by ring
    simp only [Nat.succ_sub_one]
    omega

/-- Inversion of the row-to-hospital extraction of `hospitalsOf`. -/
theorem hospitalsOf_row_cells (f : Frame) (r : List Str) (x : Str × Str)
    (hg : (match f.cell r (str "hospital_id"), f.cell r (str "hospital_name") with
      | some i, some n => some (i, n)
      | _, _ => none) = some x) :
    f.cell r (str "hospital_id") = some x.1 ∧
      f.cell r (str "hospital_name") = some x.2 := by
  cases h1 : f.cell r (str "hospital_id") with
  | none => rw [h1] at hg; exact Option.noConfusion hg
  | some i2 =>
    cases h2 : f.cell r (str "hospital_name") with
    | none => rw [h1, h2] at hg; exact Option.noConfusion hg
    | some n2 =>
      rw [h1, h2] at hg
      simp only [Option.some.injEq] at hg
      subst hg
      exact ⟨rfl, rfl⟩

/-- C3: on a metrics frame in which each hospital id carries a single name and
every row's location parses as a numeric coordinate pair, `get_all_distances`
succeeds and returns a list of exactly `n·(n−1)/2` entries for the `n`
distinct hospitals of the table, with `total_pairs` equal to the length of
that list; the enumerated `(id_a, id_b)` pairs are duplicate-free and all
strictly increasing (`id_a < id_b`), so no unordered pair repeats and no
hospital is paired with itself, and the result carries one entry per
enumerated pair. -/
theorem get_all_distances_pair_count (f : Frame)
    (hid : ∀ r1 ∈ f.rows, ∀ r2 ∈ f.rows,
      f.cell r1 (str "hospital_id") = f.cell r2 (str "hospital_id") →
      f.cell r1 (str "hospital_name") = f.cell r2 (str "hospital_name"))
    (hloc : ∀ r ∈ f.rows, rowCoordsOk f r = true) :
    ∃ L, get_all_distances (some f) = .ok (L.length, L) ∧
      2 * L.length = (hospitalsOf f).length * (hospitalsOf f).length -
        (hospitalsOf f).length ∧
      L.length = (hospitalsOf f).length * ((hospitalsOf f).length - 1) / 2 ∧
      L.length = (orderedPairs (hospitalsOf f)).length ∧
      (orderedPairs (hospitalsOf f)).Nodup ∧
      ∀ p ∈ orderedPairs (hospitalsOf f), p.1.1 < p.2.1 := by
  have hkeys : ((hospitalsOf f).map Prod.fst).Nodup := by
    refine List.Nodup.map_on ?_ (nodup_dedupFirst _)
    intro x hx y hy hxy
    rw [hospitalsOf, mem_dedupFirst] at hx hy
    obtain ⟨rx, hrx, hgx⟩ := List.mem_filterMap.mp hx
    obtain ⟨ry, hry, hgy⟩ := List.mem_filterMap.mp hy
    obtain ⟨hcx1, hcx2⟩ := hospitalsOf_row_cells f rx x hgx
    obtain ⟨hcy1, hcy2⟩ := hospitalsOf_row_cells f ry y hgy
    have hnames := hid rx hrx ry hry (by rw [hcx1, hcy1, hxy])
    rw [hcx2, hcy2] at hnames
    exact Prod.ext hxy (Option.some.inj hnames)
  have hsucc : ∀ p ∈ orderedPairs (hospitalsOf f),
      ∃ d, calculate_distance (some f) p.1.2 p.2.2 = .ok d := by
    intro p hp
    obtain ⟨hp1, hp2⟩ := orderedPairs_mem (hospitalsOf f) p hp
    exact calculate_distance_succeeds f hloc p.1.1 p.1.2 p.2.1 p.2.2
      (by rw [Prod.mk.eta]; exact hp1) (by rw [Prod.mk.eta]; exact hp2)
  obtain ⟨L, hL, hlen⟩ := distLoop_ok f (orderedPairs (hospitalsOf f)) hsucc
  have h2L : 2 * L.length =
      (hospitalsOf f).length * (hospitalsOf f).length - (hospitalsOf f).length := by
    rw [hlen, orderedPairs_length]
    exact ltCounts_self _ hkeys
  have hnn := nat_mul_pred (hospitalsOf f).length
  refine ⟨L, ?_, h2L, by omega, by rw [hlen],
    orderedPairs_nodup _ (nodup_dedupFirst _), orderedPairs_strict _⟩
  simp only [get_all_distances, hL]

/-- C3 witness: the sample metrics frame has two distinct hospitals and one
enumerated pair. -/
theorem get_all_distances_pair_count_witness :
    (∀ r1 ∈ sampleMetrics.rows, ∀ r2 ∈ sampleMetrics.rows,
      sampleMetrics.cell r1 (str "hospital_id") =
        sampleMetrics.cell r2 (str "hospital_id") →
      sampleMetrics.cell r1 (str "hospital_name") =
        sampleMetrics.cell r2 (str "hospital_name")) ∧
    (∀ r ∈ sampleMetrics.rows, rowCoordsOk sampleMetrics r = true) ∧
    ∃ L, get_all_distances (some sampleMetrics) = .ok (L.length, L) ∧
      2 * L.length = (hospitalsOf sampleMetrics).length *
        (hospitalsOf sampleMetrics).length - (hospitalsOf sampleMetrics).length ∧
      L.length = (hospitalsOf sampleMetrics).length *
        ((hospitalsOf sampleMetrics).length - 1) / 2 ∧
      L.length = (orderedPairs (hospitalsOf sampleMetrics)).length ∧
      (orderedPairs (hospitalsOf sampleMetrics)).Nodup ∧
      ∀ p ∈ orderedPairs (hospitalsOf sampleMetrics), p.1.1 < p.2.1 :=
  ⟨by decide, by decide,
   get_all_distances_pair_count sampleMetrics (by decide) (by decide)⟩
